import Mathlib

/-!
Shallow embedding of the Quantum-Authentication frontend
(src/frontend/src/components/Login.jsx: the Login form and the
mandatory-dual-biometric Register form; src/unnamed/part_000: the
optional-face Register variant; src/frontend/src/app.js: the App shell;
src/frontend/src/components/WebcamCapture.jsx: the webcam capture
resource), together with theorems settling the frozen claims about the
specification.

React state is modelled as explicit record-passing: each event handler
becomes a function from the component state (plus the outcome of any
awaited call) to the next state.  Closures created during a render
capture that render's state values; where this matters (the WebcamCapture
mount-effect cleanup) the captured value is an explicit argument.
-/

/-- JS logical-or applied to an optional string: `undefined`, `null` and
the empty string are falsy, so `v || d` yields `d` for all of them. -/
def jsOr : Option String → String → String
  | none, d => d
  | some s, d => if s = "" then d else s

/-- The value `localStorage.setItem` actually stores for a possibly-absent
JS string: `setItem` coerces `undefined` to the string "undefined". -/
def jsToStoredString : Option String → String
  | none => "undefined"
  | some s => s

/-- Uniform response envelope returned by the ApiService wrapper
(src/readme.md ApiService): success flag, optional message, opaque data
payload, optional token. -/
structure Envelope where
  success : Bool
  message : Option String
  data    : Option String
  token   : Option String
deriving DecidableEq

/-- Outcome of one awaited ApiService call inside a try/catch: either the
promise resolved with an envelope, or it rejected with an error whose
`message` may be absent. -/
inductive SubmitOutcome where
  | env (e : Envelope)
  | thrown (msg : Option String)
deriving DecidableEq

/-- An outcome that the submit handler treats as a failure: a resolved
envelope with `success:false`, or any thrown error. -/
def SubmitOutcome.isFailure : SubmitOutcome → Bool
  | .env e => !e.success
  | .thrown _ => true

/-- An outcome that the submit handler treats as a success: a resolved
envelope with `success:true`. -/
def SubmitOutcome.isSuccessEnv : SubmitOutcome → Bool
  | .env e => e.success
  | .thrown _ => false

/-- Whether the outcome is an envelope carrying a non-empty token. -/
def SubmitOutcome.tokenNonEmpty : SubmitOutcome → Bool
  | .env e =>
      match e.token with
      | some tk => tk != ""
      | none => false
  | .thrown _ => false

/-- The error string the submit handlers display for a failing outcome,
given the two generic fallbacks: `response.message || fbEnv` for a
`success:false` envelope and `err.message || fbThrown` for a thrown
error (Login.jsx lines 45 and 48, 257 and 260). -/
def SubmitOutcome.displayedError (o : SubmitOutcome) (fbEnv fbThrown : String) : String :=
  match o with
  | .env e => jsOr e.message fbEnv
  | .thrown m => jsOr m fbThrown

/-! ## Login form (Login.jsx, function Login) -/

/-- The Login form data: `{ username: '', password: '' }`. -/
structure LoginForm where
  username : String
  password : String
deriving DecidableEq

/-- The credential input fields of the Login form. -/
inductive LoginField where
  | username
  | password
deriving DecidableEq

/-- Computed-key spread update `{ ...formData, [e.target.name]: e.target.value }`. -/
def LoginForm.set (fd : LoginForm) : LoginField → String → LoginForm
  | .username, v => { fd with username := v }
  | .password, v => { fd with password := v }

/-- Field read, for frame statements. -/
def LoginForm.get (fd : LoginForm) : LoginField → String
  | .username => fd.username
  | .password => fd.password

/-- State of the Login component: formData, faceImage, showWebcam,
loading, error (Login.jsx lines 8-15). -/
structure LoginState where
  formData   : LoginForm
  faceImage  : Option String
  showWebcam : Bool
  loading    : Bool
  error      : String
deriving DecidableEq

/-- Login.handleInputChange: spreads the edited field into formData and
clears the error banner (Login.jsx lines 17-23). -/
def Login.handleInputChange (s : LoginState) (f : LoginField) (v : String) : LoginState :=
  { s with formData := s.formData.set f v, error := "" }

/-- Request body assembled by Login.handleSubmit for api.login
(Login.jsx lines 36-40). -/
structure LoginRequest where
  username   : String
  password   : String
  face_image : Option String
deriving DecidableEq

/-- Result of running Login.handleSubmit to completion: the final
component state, the `(data, token)` pair passed to `onSuccess` if any,
and the request that was issued if any. -/
structure LoginSubmitResult where
  state         : LoginState
  onSuccessCall : Option (Option String × Option String)
  request       : Option LoginRequest
deriving DecidableEq

/-- Login.handleSubmit (Login.jsx lines 30-52) run to completion on a
given outcome of the awaited `api.login` call: sets loading and clears
the error, issues the request, then branches on the response; the
`finally` clause resets loading. -/
def Login.handleSubmit (s : LoginState) (o : SubmitOutcome) : LoginSubmitResult :=
  let req : LoginRequest :=
    { username := s.formData.username
    , password := s.formData.password
    , face_image := s.faceImage }
  match o with
  | .env e =>
      if e.success then
        { state := { s with loading := false, error := "" }
        , onSuccessCall := some (e.data, e.token)
        , request := some req }
      else
        { state := { s with loading := false, error := jsOr e.message "Login failed" }
        , onSuccessCall := none
        , request := some req }
  | .thrown m =>
      { state := { s with loading := false,
                          error := jsOr m "Login failed. Please try again." }
      , onSuccessCall := none
      , request := some req }

/-- The Login submit button: `disabled={loading}` (Login.jsx lines 137-141). -/
def Login.submitEnabled (s : LoginState) : Bool :=
  !s.loading

/-- A user-triggered submit of the Login form: the handler runs only when
the submit button is enabled; otherwise nothing happens. -/
def Login.submitEvent (s : LoginState) (o : SubmitOutcome) : LoginSubmitResult :=
  if Login.submitEnabled s then Login.handleSubmit s o
  else { state := s, onSuccessCall := none, request := none }

/-! ## Register form, mandatory dual-biometric variant
(Login.jsx, function Register) -/

/-- The Register form data: username, email, password, confirmPassword
(Login.jsx lines 163-168). -/
structure RegForm where
  username        : String
  email           : String
  password        : String
  confirmPassword : String
deriving DecidableEq

/-- The credential input fields of the Register forms. -/
inductive RegField where
  | username
  | email
  | password
  | confirmPassword
deriving DecidableEq

/-- Computed-key spread update for the Register form data. -/
def RegForm.set (fd : RegForm) : RegField → String → RegForm
  | .username, v => { fd with username := v }
  | .email, v => { fd with email := v }
  | .password, v => { fd with password := v }
  | .confirmPassword, v => { fd with confirmPassword := v }

/-- Field read, for frame statements. -/
def RegForm.get (fd : RegForm) : RegField → String
  | .username => fd.username
  | .email => fd.email
  | .password => fd.password
  | .confirmPassword => fd.confirmPassword

/-- State of the mandatory-biometrics Register component
(Login.jsx lines 163-175). -/
structure RegState where
  formData            : RegForm
  faceImage           : Option String
  fingerprintData     : Option String
  showWebcam          : Bool
  loading             : Bool
  error               : String
  step                : Nat
  fingerprintScanning : Bool
deriving DecidableEq

/-- Register.handleInputChange (Login.jsx lines 177-183). -/
def Register.handleInputChange (s : RegState) (f : RegField) (v : String) : RegState :=
  { s with formData := s.formData.set f v, error := "" }

/-- Approximation of the JS whitespace class: the regex token matching
any single non-whitespace character. -/
def nonWs (c : Char) : Bool :=
  !c.isWhitespace

/-- NFA-subset state for scanning a string against the unanchored email
regex of validateStep1: flags record which prefixes of the pattern some
suffix of the consumed input has matched. -/
structure EmailScan where
  seenLocal     : Bool
  seenAt        : Bool
  seenDomain    : Bool
  seenDot       : Bool
  matched       : Bool
deriving DecidableEq

/-- One character step of the email-pattern scan. -/
def emailStep (st : EmailScan) (c : Char) : EmailScan :=
  { seenLocal := nonWs c
  , seenAt := st.seenLocal && (c == '@')
  , seenDomain := (st.seenAt || st.seenDomain) && nonWs c
  , seenDot := st.seenDomain && (c == '.')
  , matched := st.matched || (st.seenDot && nonWs c) }

/-- The email test of validateStep1: whether the string contains a
substring of the form nonspace-run, at-sign, nonspace-run, dot,
nonspace-run (the unanchored regex used at Login.jsx line 208). -/
def emailTest (s : String) : Bool :=
  (s.data.foldl emailStep
    { seenLocal := false, seenAt := false, seenDomain := false
    , seenDot := false, matched := false }).matched

/-- First validateStep1 condition: `!formData.username || formData.username.length < 3`. -/
def ruleUsername (fd : RegForm) : Bool :=
  fd.username == "" || decide (fd.username.length < 3)

/-- Second validateStep1 condition: `!formData.email || !regex.test(formData.email)`. -/
def ruleEmail (fd : RegForm) : Bool :=
  fd.email == "" || !emailTest fd.email

/-- Third validateStep1 condition: `!formData.password || formData.password.length < 8`. -/
def rulePassword (fd : RegForm) : Bool :=
  fd.password == "" || decide (fd.password.length < 8)

/-- Fourth validateStep1 condition: `formData.password !== formData.confirmPassword`. -/
def ruleConfirm (fd : RegForm) : Bool :=
  fd.password != fd.confirmPassword

/-- Register.validateStep1 (Login.jsx lines 203-221): checks the four
credential rules in order; on the first violated rule it sets the
corresponding error message and returns false, otherwise returns true. -/
def Register.validateStep1 (s : RegState) : RegState × Bool :=
  if ruleUsername s.formData then
    ({ s with error := "Username must be at least 3 characters" }, false)
  else if ruleEmail s.formData then
    ({ s with error := "Please enter a valid email" }, false)
  else if rulePassword s.formData then
    ({ s with error := "Password must be at least 8 characters" }, false)
  else if ruleConfirm s.formData then
    ({ s with error := "Passwords do not match" }, false)
  else (s, true)

/-- The step-1 Next button handler (Login.jsx lines 387-397):
`if (validateStep1()) setStep(2)`. -/
def Register.nextHandler (s : RegState) : RegState :=
  let r := Register.validateStep1 s
  if r.2 then { r.1 with step := 2 } else r.1

/-- Register.validateStep2 (Login.jsx lines 223-233): both biometric
factors are required. -/
def Register.validateStep2 (s : RegState) : RegState × Bool :=
  match s.faceImage with
  | none => ({ s with error := "Face capture is required for registration" }, false)
  | some _ =>
      match s.fingerprintData with
      | none => ({ s with error := "Fingerprint scan is required for registration" }, false)
      | some _ => (s, true)

/-- The step-2 Back button handler (Login.jsx lines 510-517):
`onClick={() => setStep(1)}`. -/
def Register.goBack (s : RegState) : RegState :=
  { s with step := 1 }

/-- Request body assembled by Register.handleSubmit for api.register
(Login.jsx lines 246-252). -/
structure RegRequest where
  username             : String
  email                : String
  password             : String
  face_image           : Option String
  fingerprint_template : Option String
deriving DecidableEq

/-- Result of running Register.handleSubmit to completion. -/
structure RegSubmitResult where
  state         : RegState
  onSuccessCall : Option (Option String × Option String)
  request       : Option RegRequest
deriving DecidableEq

/-- Register.handleSubmit (Login.jsx lines 235-264) run to completion:
returns early if validateStep2 fails; otherwise issues the request and
branches on the outcome, with the `finally` clause resetting loading. -/
def Register.handleSubmit (s : RegState) (o : SubmitOutcome) : RegSubmitResult :=
  let v := Register.validateStep2 s
  if v.2 then
    let req : RegRequest :=
      { username := s.formData.username
      , email := s.formData.email
      , password := s.formData.password
      , face_image := s.faceImage
      , fingerprint_template := s.fingerprintData }
    match o with
    | .env e =>
        if e.success then
          { state := { s with loading := false, error := "" }
          , onSuccessCall := some (e.data, e.token)
          , request := some req }
        else
          { state := { s with loading := false,
                              error := jsOr e.message "Registration failed" }
          , onSuccessCall := none
          , request := some req }
    | .thrown m =>
        { state := { s with loading := false,
                            error := jsOr m "Registration failed. Please try again." }
        , onSuccessCall := none
        , request := some req }
  else
    { state := v.1, onSuccessCall := none, request := none }

/-- The Register submit button:
`disabled={loading || !faceImage || !fingerprintData}` (Login.jsx lines 518-521). -/
def Register.submitEnabled (s : RegState) : Bool :=
  !s.loading && s.faceImage.isSome && s.fingerprintData.isSome

/-- A user-triggered submit of the Register form: the submit button is
rendered only on step 2 and the handler runs only when enabled. -/
def Register.submitEvent (s : RegState) (o : SubmitOutcome) : RegSubmitResult :=
  if s.step == 2 && Register.submitEnabled s then Register.handleSubmit s o
  else { state := s, onSuccessCall := none, request := none }

/-! ## Register form, optional-face variant (src/unnamed/part_000) -/

/-- State of the optional-face Register component (part_000 lines 7-17):
no fingerprint factor at all. -/
structure RegOptState where
  formData   : RegForm
  faceImage  : Option String
  showWebcam : Bool
  loading    : Bool
  error      : String
  step       : Nat
deriving DecidableEq

/-- handleInputChange of the optional-face variant (part_000 lines 19-25). -/
def RegisterOpt.handleInputChange (s : RegOptState) (f : RegField) (v : String) : RegOptState :=
  { s with formData := s.formData.set f v, error := "" }

/-- validateStep1 of the optional-face variant (part_000 lines 32-50);
textually identical checks to Register.validateStep1. -/
def RegisterOpt.validateStep1 (s : RegOptState) : RegOptState × Bool :=
  if ruleUsername s.formData then
    ({ s with error := "Username must be at least 3 characters" }, false)
  else if ruleEmail s.formData then
    ({ s with error := "Please enter a valid email" }, false)
  else if rulePassword s.formData then
    ({ s with error := "Password must be at least 8 characters" }, false)
  else if ruleConfirm s.formData then
    ({ s with error := "Passwords do not match" }, false)
  else (s, true)

/-- The step-1 Next button handler of the optional-face variant
(part_000 lines 180-190). -/
def RegisterOpt.nextHandler (s : RegOptState) : RegOptState :=
  let r := RegisterOpt.validateStep1 s
  if r.2 then { r.1 with step := 2 } else r.1

/-- The step-2 Back button handler of the optional-face variant
(part_000 lines 231-238): `onClick={() => setStep(1)}`. -/
def RegisterOpt.goBack (s : RegOptState) : RegOptState :=
  { s with step := 1 }

/-- The optional-face variant submit button: `disabled={loading}`
(part_000 lines 239-242). -/
def RegisterOpt.submitEnabled (s : RegOptState) : Bool :=
  !s.loading

/-! ## App shell (src/frontend/src/app.js) -/

/-- State of the App component plus the persisted value under the single
well-known localStorage key "token" (app.js lines 9-12). -/
structure AppState where
  view    : String
  user    : Option String
  token   : Option String
  storage : Option String
deriving DecidableEq

/-- App.handleRegisterSuccess (app.js lines 36-41): adopt the profile,
adopt the token, persist it, and route to the dashboard.  `setItem`
always stores a value; an absent JS token is coerced to "undefined". -/
def App.handleRegisterSuccess (a : AppState) (userData userToken : Option String) : AppState :=
  { a with user := userData,
           token := userToken,
           storage := some (jsToStoredString userToken),
           view := "dashboard" }

/-- App.handleLoginSuccess (app.js lines 43-48): same body as
handleRegisterSuccess. -/
def App.handleLoginSuccess (a : AppState) (userData userToken : Option String) : AppState :=
  { a with user := userData,
           token := userToken,
           storage := some (jsToStoredString userToken),
           view := "dashboard" }

/-- App.handleLogout (app.js lines 50-55). -/
def App.handleLogout (a : AppState) : AppState :=
  { a with user := none, token := none, storage := none, view := "home" }

/-- The getUser branch of the startup effect (app.js lines 22-33) run on
a given outcome of the awaited `api.getUser` call.  The promise chain is
`api.getUser(token).then(response => ...)` with NO rejection handler, so
a thrown ServiceError (non-2xx or transport failure) runs no code at
all: the state is unchanged and the token is not evicted. -/
def App.startupAuthStep (a : AppState) (o : SubmitOutcome) : AppState :=
  match a.token with
  | none => a
  | some _ =>
      match o with
      | .env e =>
          if e.success then { a with user := e.data, view := "dashboard" }
          else { a with storage := none, token := none }
      | .thrown _ => a

/-- One full login submission round followed by the App shell reaction:
if the submit handler called `onSuccess`, the shell persists the token
(app.js handleLoginSuccess); otherwise the shell state is untouched. -/
def loginRound (a : AppState) (s : LoginState) (o : SubmitOutcome) : AppState × LoginState :=
  let r := Login.handleSubmit s o
  match r.onSuccessCall with
  | some c => (App.handleLoginSuccess a c.1 c.2, r.state)
  | none => (a, r.state)

/-- One full register submission round followed by the App shell reaction. -/
def registerRound (a : AppState) (s : RegState) (o : SubmitOutcome) : AppState × RegState :=
  let r := Register.handleSubmit s o
  match r.onSuccessCall with
  | some c => (App.handleRegisterSuccess a c.1 c.2, r.state)
  | none => (a, r.state)

/-! ## Spec-side refinement definition for the credential rules -/

/-- Modelled from the spec wording of `advance(credentials)`: the ordered
list of field constraints with the message each one reports when
violated.  Used only to compare against Register.validateStep1. -/
def credRules (fd : RegForm) : List (Bool × String) :=
  [ (ruleUsername fd, "Username must be at least 3 characters")
  , (ruleEmail fd, "Please enter a valid email")
  , (rulePassword fd, "Password must be at least 8 characters")
  , (ruleConfirm fd, "Passwords do not match") ]

/-- Modelled from the spec wording: the message of the FIRST violated
rule in the ordered rule list, if any rule is violated. -/
def specFirstViolation (fd : RegForm) : Option String :=
  ((credRules fd).find? (fun r => r.1)).map (fun r => r.2)

/-! ## Webcam capture resource (src/frontend/src/components/WebcamCapture.jsx)

The world records the live flags of the tracks of the media stream this
component instance acquired, and the face-sample artifact delivered to
the caller through `onCapture`, if any.  React closures capture the
state values of the render that created them, so functions modelling a
closure take the stream value captured by that render (`Option Unit`:
whether that render had already seen `setStream`) as an explicit
argument; React refs are mutable cells read at call time, so the
current mounted-ness of the refs is a separate argument. -/

/-- World state for one WebcamCapture instance. -/
structure CamWorld where
  tracksLive : List Bool
  artifact   : Option String
deriving DecidableEq

/-- Successful device acquisition (startWebcam, WebcamCapture.jsx lines
18-37): getUserMedia resolves with a stream whose n tracks are all live
and `setStream` records it. -/
def startWebcam (n : Nat) (w : CamWorld) : CamWorld :=
  { w with tracksLive := List.replicate n true }

/-- The stopWebcam closure created in a given render (WebcamCapture.jsx
lines 39-43): it stops every track of the stream captured by that
render's state; in a render where the stream state is still null it
stops nothing. -/
def stopWebcam (streamAtRender : Option Unit) (w : CamWorld) : CamWorld :=
  match streamAtRender with
  | none => w
  | some _ => { w with tracksLive := w.tracksLive.map (fun _ => false) }

/-- The unmount cleanup registered by the mount effect (WebcamCapture.jsx
lines 11-16): the effect has an empty dependency list, so the cleanup it
returns invokes the stopWebcam closure of the FIRST render, whose stream
state is null. -/
def unmountCleanup (w : CamWorld) : CamWorld :=
  stopWebcam none w

/-- The captureImage closure created in a given render (WebcamCapture.jsx
lines 62-80): the video and canvas refs are read at call time
(`mountedRefs` is false after unmount, and React nulls the refs); when
both refs are present it encodes the frame, stops the webcam via the
same render's stopWebcam closure, and delivers the artifact. -/
def captureImage (streamAtRender : Option Unit) (mountedRefs : Bool) (w : CamWorld) : CamWorld :=
  if mountedRefs then
    let w1 := stopWebcam streamAtRender w
    { w1 with artifact := some "data-image-jpeg" }
  else w

/-- The cancel exit path from the live state: the Cancel button calls
`onCancel`, the parent sets `showWebcam` to false, the component
unmounts, and the mount-effect cleanup runs. -/
def cancelExit (n : Nat) (w : CamWorld) : CamWorld :=
  unmountCleanup (startWebcam n w)

/-- The successful capture exit path: captureImage runs from a render
that has the stream, then the parent hides the webcam and the component
unmounts. -/
def captureExit (n : Nat) (w : CamWorld) : CamWorld :=
  unmountCleanup (captureImage (some ()) true (startWebcam n w))

/-- One firing of the countdown interval scheduled by handleCapture
(WebcamCapture.jsx lines 45-60): decrement the count; at zero, clear the
interval and run the captureImage closure of the render that armed it. -/
def intervalTick (streamAtClick : Option Unit) (mountedRefs : Bool) :
    Nat × CamWorld → Nat × CamWorld
  | (count, w) =>
      let c := count - 1
      if c = 0 then (c, captureImage streamAtClick mountedRefs w) else (c, w)

/-- Run m firings of the countdown interval. -/
def runTicks (streamAtClick : Option Unit) (mountedRefs : Bool) :
    Nat → Nat × CamWorld → Nat × CamWorld
  | 0, p => p
  | m + 1, p => runTicks streamAtClick mountedRefs m (intervalTick streamAtClick mountedRefs p)

/-- Cancel during the armed countdown at remaining value k: acquire the
stream, arm at 3, let (3 - k) ticks fire while mounted, then cancel
(unmount plus cleanup).  Nothing clears the interval, so the remaining
k ticks still fire after unmount with the refs nulled. -/
def cancelDuringCountdown (k n : Nat) (w : CamWorld) : CamWorld :=
  let w1 := startWebcam n w
  let p1 := runTicks (some ()) true (3 - k) (3, w1)
  let w2 := unmountCleanup p1.2
  (runTicks (some ()) false k (p1.1, w2)).2

/-! ## Concrete fixture states -/

/-- A biometrics-stage Register state with both factors captured. -/
def sBio : RegState :=
  { formData := { username := "alice", email := "a@b.com"
                , password := "password1", confirmPassword := "password1" }
  , faceImage := some "face-data"
  , fingerprintData := some "fp-data"
  , showWebcam := false
  , loading := false
  , error := ""
  , step := 2
  , fingerprintScanning := false }

/-- A Login state with valid credentials and no face captured. -/
def tNoFace : LoginState :=
  { formData := { username := "alice", password := "password1" }
  , faceImage := none
  , showWebcam := false
  , loading := false
  , error := "" }

/-- A biometrics-stage optional-face Register state. -/
def uOpt : RegOptState :=
  { formData := { username := "alice", email := "a@b.com"
                , password := "password1", confirmPassword := "password1" }
  , faceImage := none
  , showWebcam := false
  , loading := false
  , error := ""
  , step := 2 }

/-- An empty capture world. -/
def w0 : CamWorld :=
  { tracksLive := [], artifact := none }

/-! ## Claim theorems -/

/-- C1: in the biometrics-collection stage, submit is enabled iff every
factor required by the active variant is captured: in the mandatory
dual-biometric Register variant exactly when both the face image and the
fingerprint template are present; in the Login variant (face optional)
for every face state, and the submit event then issues the login request
directly; in the optional-face Register variant likewise for every face
state. -/
theorem submit_enabled_iff_required_factors
    (s : RegState) (t : LoginState) (u : RegOptState) (o : SubmitOutcome)
    (hs : s.loading = false) (hstep : s.step = 2)
    (ht : t.loading = false) (hu : u.loading = false) :
    (Register.submitEnabled s = true ↔
      (s.faceImage.isSome = true ∧ s.fingerprintData.isSome = true)) ∧
    Login.submitEnabled t = true ∧
    RegisterOpt.submitEnabled u = true ∧
    (Login.submitEvent t o).request =
      some { username := t.formData.username
           , password := t.formData.password
           , face_image := t.faceImage } := by
  refine ⟨?_, ?_, ?_, ?_⟩
  · simp [Register.submitEnabled, hs]
  · simp [Login.submitEnabled, ht]
  · simp [RegisterOpt.submitEnabled, hu]
  · cases o with
    | env e =>
        cases he : e.success <;>
          simp [Login.submitEvent, Login.submitEnabled, ht, Login.handleSubmit, he]
    | thrown m =>
        simp [Login.submitEvent, Login.submitEnabled, ht, Login.handleSubmit]

/-- C1 witness: the theorem applied at concrete states with both factors
captured on the Register side and no face on the Login side. -/
theorem submit_enabled_iff_required_factors_witness :
    (Register.submitEnabled sBio = true ↔
      (sBio.faceImage.isSome = true ∧ sBio.fingerprintData.isSome = true)) ∧
    Login.submitEnabled tNoFace = true := by
  have h := submit_enabled_iff_required_factors sBio tNoFace uOpt (.thrown none) rfl rfl rfl rfl
  exact ⟨h.1, h.2.1⟩

/-- C2 (code evaluation at the failing input): on the cancel / abrupt
teardown exit path, the mount-effect cleanup invokes the stopWebcam
closure of the first render, whose stream state is still null, so the
cleanup stops nothing: every track of the acquired stream remains live
after the exit, for any track count and any starting world. -/
theorem cancel_teardown_leaves_tracks_live (n : Nat) (w : CamWorld) :
    (cancelExit n w).tracksLive = List.replicate n true ∧
    (cancelExit n w).artifact = w.artifact :=
  ⟨rfl, rfl⟩

/-- Contrast lemma for the capture path: a successful capture does stop
every track (captureImage runs a stopWebcam closure from a render that
has the stream) and delivers the artifact. -/
theorem capture_exit_stops_tracks (n : Nat) (w : CamWorld) :
    (captureExit n w).tracksLive = List.replicate n false ∧
    (captureExit n w).artifact = some "data-image-jpeg" := by
  constructor
  · simp [captureExit, unmountCleanup, stopWebcam, captureImage, startWebcam]
  · rfl

/-- C3 (counterexample): at a concrete biometrics-stage state with both
factors captured, the Back handler returns to step 1 but leaves both the
face image and the fingerprint template present, refuting that both are
reset to absent. -/
theorem goBack_counterexample :
    (Register.goBack sBio).step = 1 ∧
    (Register.goBack sBio).faceImage = some "face-data" ∧
    (Register.goBack sBio).fingerprintData = some "fp-data" ∧
    ¬ ((Register.goBack sBio).faceImage = none ∧
       (Register.goBack sBio).fingerprintData = none) := by
  refine ⟨rfl, rfl, rfl, ?_⟩
  intro h
  simp [Register.goBack, sBio] at h

/-- C3 (amended): the Back handler of both Register variants returns to
the credentials step and leaves every captured biometric factor, the
form data and the error banner unchanged. -/
theorem goBack_preserves_captured_factors (s : RegState) (u : RegOptState) :
    (Register.goBack s).step = 1 ∧
    (Register.goBack s).faceImage = s.faceImage ∧
    (Register.goBack s).fingerprintData = s.fingerprintData ∧
    (Register.goBack s).formData = s.formData ∧
    (Register.goBack s).error = s.error ∧
    (RegisterOpt.goBack u).step = 1 ∧
    (RegisterOpt.goBack u).faceImage = u.faceImage ∧
    (RegisterOpt.goBack u).formData = u.formData :=
  ⟨rfl, rfl, rfl, rfl, rfl, rfl, rfl, rfl⟩

/-- C8 (code evaluation at the failing input): cancelling during the
armed countdown at any remaining value k with 1 <= k <= 3 never clears
the interval, but when the pending tick finally fires the unmounted
component's refs are null, so no artifact is produced or delivered;
however the acquired stream's tracks all remain live because the unmount
cleanup is the stale first-render stopWebcam closure. -/
theorem cancel_during_countdown_eval (k n : Nat) (w : CamWorld)
    (h1 : 1 ≤ k) (h2 : k ≤ 3) :
    (cancelDuringCountdown k n w).artifact = w.artifact ∧
    (cancelDuringCountdown k n w).tracksLive = List.replicate n true := by
  interval_cases k
  · exact ⟨rfl, rfl⟩
  · exact ⟨rfl, rfl⟩
  · exact ⟨rfl, rfl⟩

/-- C8 witness: the theorem applied at remaining count 2 with a 1-track
stream and an empty starting world. -/
theorem cancel_during_countdown_eval_witness :
    (cancelDuringCountdown 2 1 w0).artifact = none ∧
    (cancelDuringCountdown 2 1 w0).tracksLive = List.replicate 1 true := by
  have h := cancel_during_countdown_eval 2 1 w0 (by decide) (by decide)
  exact ⟨h.1, h.2⟩

/-- C9: while a submission is pending (loading is true) the submit event
of both the Register and the Login form is a no-op: the state is
unchanged, no request is issued and onSuccess is not called, so no
second register or login request can start before the pending one
completes. -/
theorem submit_noop_while_loading (s : RegState) (t : LoginState) (o : SubmitOutcome)
    (hs : s.loading = true) (ht : t.loading = true) :
    Register.submitEvent s o = { state := s, onSuccessCall := none, request := none } ∧
    Login.submitEvent t o = { state := t, onSuccessCall := none, request := none } := by
  constructor
  · simp [Register.submitEvent, Register.submitEnabled, hs]
  · simp [Login.submitEvent, Login.submitEnabled, ht]

/-- C9 witness: the theorem applied at concrete loading states. -/
theorem submit_noop_while_loading_witness :
    Register.submitEvent { sBio with loading := true } (.thrown none) =
      { state := { sBio with loading := true }, onSuccessCall := none, request := none } ∧
    Login.submitEvent { tNoFace with loading := true } (.thrown none) =
      { state := { tNoFace with loading := true }, onSuccessCall := none, request := none } :=
  submit_noop_while_loading { sBio with loading := true } { tNoFace with loading := true }
    (.thrown none) rfl rfl

/-- An unauthenticated shell state with nothing persisted. -/
def a0 : AppState :=
  { view := "login", user := none, token := none, storage := none }

/-- A shell state holding a persisted token. -/
def aTok : AppState :=
  { view := "home", user := none, token := some "tok-123", storage := some "tok-123" }

/-- A success envelope with a non-empty token. -/
def envOk : Envelope :=
  { success := true, message := none, data := some "profile", token := some "tok-123" }

/-- A success envelope whose token field is the empty string. -/
def envEmptyTok : Envelope :=
  { success := true, message := none, data := some "profile", token := some "" }

/-- A failure envelope with a message. -/
def envFail : Envelope :=
  { success := false, message := some "Invalid credentials", data := none, token := none }

/-- C4 (counterexample): a login round on a success envelope whose token
is the empty string still persists a value (the empty string) under the
token key, refuting the claim that a token is persisted only when the
envelope token is non-empty. -/
theorem token_persist_counterexample :
    (loginRound a0 tNoFace (.env envEmptyTok)).1.storage = some "" ∧
    ¬ (((loginRound a0 tNoFace (.env envEmptyTok)).1.storage ≠ none) ↔
        ((SubmitOutcome.env envEmptyTok).isSuccessEnv = true ∧
         (SubmitOutcome.env envEmptyTok).tokenNonEmpty = true)) := by
  constructor
  · rfl
  · decide

/-- C4 (amended): starting from a client with no value persisted under
the token key, a register or login submission round persists a value iff
the outcome was an envelope with success true; whether the token field
is empty or absent plays no role (the coerced value is persisted
anyway). -/
theorem token_persisted_iff_success
    (a b : AppState) (s : RegState) (t : LoginState) (o : SubmitOutcome)
    (ha : a.storage = none) (hb : b.storage = none)
    (hface : s.faceImage.isSome = true) (hfp : s.fingerprintData.isSome = true) :
    (((registerRound a s o).1.storage ≠ none) ↔ o.isSuccessEnv = true) ∧
    (((loginRound b t o).1.storage ≠ none) ↔ o.isSuccessEnv = true) := by
  obtain ⟨f, hf⟩ := Option.isSome_iff_exists.mp hface
  obtain ⟨g, hg⟩ := Option.isSome_iff_exists.mp hfp
  cases o with
  | env e =>
      cases he : e.success <;>
        simp [registerRound, loginRound, Register.handleSubmit, Login.handleSubmit,
              Register.validateStep2, hf, hg, he, App.handleRegisterSuccess,
              App.handleLoginSuccess, SubmitOutcome.isSuccessEnv, ha, hb]
  | thrown m =>
      simp [registerRound, loginRound, Register.handleSubmit, Login.handleSubmit,
            Register.validateStep2, hf, hg, App.handleRegisterSuccess,
            App.handleLoginSuccess, SubmitOutcome.isSuccessEnv, ha, hb]

/-- C4 witness: the amended theorem applied at concrete unauthenticated
states and a success envelope. -/
theorem token_persisted_iff_success_witness :
    ((registerRound a0 sBio (.env envOk)).1.storage ≠ none) ↔
      (SubmitOutcome.env envOk).isSuccessEnv = true := by
  have h := token_persisted_iff_success a0 a0 sBio tNoFace (.env envOk) rfl rfl rfl rfl
  exact h.1

/-- C7 (counterexample): a thrown getUser failure (non-2xx response or
transport failure) at a concrete startup state with a persisted token
leaves the whole state unchanged — the token is NOT evicted, refuting
eviction on every failing getUser outcome. -/
theorem startup_thrown_keeps_token :
    App.startupAuthStep aTok (.thrown (some "Request failed")) = aTok ∧
    (App.startupAuthStep aTok (.thrown (some "Request failed"))).storage ≠ none := by
  refine ⟨rfl, ?_⟩
  decide

/-- C7 (amended): with a persisted token present at startup, the shell
adopts the profile and the dashboard view on a success envelope; it
evicts the persisted token only when getUser resolves with a
success:false envelope; when getUser throws, the rejection has no
handler, so the state is unchanged and the token stays persisted. -/
theorem startup_getUser_outcomes (a : AppState) (e : Envelope) (m : Option String)
    (tk : String) (htok : a.token = some tk) :
    (e.success = true →
        App.startupAuthStep a (.env e) = { a with user := e.data, view := "dashboard" }) ∧
    (e.success = false →
        App.startupAuthStep a (.env e) = { a with storage := none, token := none }) ∧
    App.startupAuthStep a (.thrown m) = a := by
  refine ⟨fun hsucc => ?_, fun hfail => ?_, ?_⟩ <;>
    simp [App.startupAuthStep, htok, *]

/-- C7 witness: the amended theorem applied at a concrete state with a
persisted token and the invalid-token failure envelope of the spec
scenario. -/
theorem startup_getUser_outcomes_witness :
    App.startupAuthStep aTok
        (.env { success := false, message := some "invalid token"
              , data := none, token := none }) =
      { aTok with storage := none, token := none } :=
  (startup_getUser_outcomes aTok
    { success := false, message := some "invalid token", data := none, token := none }
    none "tok-123" rfl).2.1 rfl

/-- Closed form of the spec-side first-violation function: the ordered
find over the rule list equals the corresponding if-chain. -/
theorem specFirstViolation_eq (fd : RegForm) :
    specFirstViolation fd =
      (if ruleUsername fd then some "Username must be at least 3 characters"
       else if ruleEmail fd then some "Please enter a valid email"
       else if rulePassword fd then some "Password must be at least 8 characters"
       else if ruleConfirm fd then some "Passwords do not match"
       else none) := by
  cases h1 : ruleUsername fd <;> cases h2 : ruleEmail fd <;>
  cases h3 : rulePassword fd <;> cases h4 : ruleConfirm fd <;>
    simp [specFirstViolation, credRules, List.find?, h1, h2, h3, h4]

/-- The mandatory-variant validator refines the spec-side
first-violation function. -/
theorem validateStep1_matches_spec (s : RegState) :
    Register.validateStep1 s =
      (match specFirstViolation s.formData with
       | some m => ({ s with error := m }, false)
       | none => (s, true)) := by
  rw [specFirstViolation_eq]
  cases h1 : ruleUsername s.formData <;> cases h2 : ruleEmail s.formData <;>
  cases h3 : rulePassword s.formData <;> cases h4 : ruleConfirm s.formData <;>
    simp [Register.validateStep1, h1, h2, h3, h4]

/-- The optional-face-variant validator refines the same spec-side
first-violation function. -/
theorem validateStep1_opt_matches_spec (u : RegOptState) :
    RegisterOpt.validateStep1 u =
      (match specFirstViolation u.formData with
       | some m => ({ u with error := m }, false)
       | none => (u, true)) := by
  rw [specFirstViolation_eq]
  cases h1 : ruleUsername u.formData <;> cases h2 : ruleEmail u.formData <;>
  cases h3 : rulePassword u.formData <;> cases h4 : ruleConfirm u.formData <;>
    simp [RegisterOpt.validateStep1, h1, h2, h3, h4]

/-- C5: the credential-stage advance checks the rules in the order
username length, email pattern, password length, confirmation match, and
on failure reports exactly the message of the first violated rule while
leaving the stage and the form data unchanged; on success it advances to
step 2; a username of "ab" always trips the first rule, with the stage
unchanged; the optional-face variant validates identically. -/
theorem validateStep1_reports_first_violated (s : RegState) (u : RegOptState) :
    (∀ m, specFirstViolation s.formData = some m →
        Register.validateStep1 s = ({ s with error := m }, false) ∧
        Register.nextHandler s = { s with error := m }) ∧
    (specFirstViolation s.formData = none →
        Register.validateStep1 s = (s, true) ∧
        Register.nextHandler s = { s with step := 2 }) ∧
    (∀ m, specFirstViolation u.formData = some m →
        RegisterOpt.validateStep1 u = ({ u with error := m }, false) ∧
        RegisterOpt.nextHandler u = { u with error := m }) ∧
    (s.formData.username = "ab" →
        Register.nextHandler s = { s with error := "Username must be at least 3 characters" } ∧
        (Register.nextHandler s).step = s.step ∧
        (Register.nextHandler s).formData = s.formData) := by
  have hv := validateStep1_matches_spec s
  have hvo := validateStep1_opt_matches_spec u
  refine ⟨?_, ?_, ?_, ?_⟩
  · intro m hm
    rw [hm] at hv
    exact ⟨hv, by simp [Register.nextHandler, hv]⟩
  · intro hm
    rw [hm] at hv
    exact ⟨hv, by simp [Register.nextHandler, hv]⟩
  · intro m hm
    rw [hm] at hvo
    exact ⟨hvo, by simp [RegisterOpt.nextHandler, hvo]⟩
  · intro hab
    have h1 : ruleUsername s.formData = true := by
      simp only [ruleUsername, hab]
      decide
    have hm : specFirstViolation s.formData = some "Username must be at least 3 characters" := by
      rw [specFirstViolation_eq, h1]
      rfl
    rw [hm] at hv
    refine ⟨by simp [Register.nextHandler, hv], ?_, ?_⟩ <;>
      simp [Register.nextHandler, hv]

/-- C5 witness: the theorem applied at a concrete state whose username is
"ab": the first rule message is reported and the stage is unchanged. -/
theorem validateStep1_reports_first_violated_witness :
    Register.nextHandler { sBio with
        formData := { username := "ab", email := "a@b.com"
                    , password := "password1", confirmPassword := "password1" }
      , step := 1 } =
      { sBio with
        formData := { username := "ab", email := "a@b.com"
                    , password := "password1", confirmPassword := "password1" }
      , step := 1
      , error := "Username must be at least 3 characters" } := by
  have h := validateStep1_reports_first_violated
    { sBio with
      formData := { username := "ab", email := "a@b.com"
                  , password := "password1", confirmPassword := "password1" }
    , step := 1 } uOpt
  exact (h.2.2.2 rfl).1

/-- C6: every failing submission outcome (a success:false envelope or a
thrown service error) leaves the handlers displaying the envelope or
error message when truthily present and otherwise the generic fallback,
resets loading, keeps the stage and every already-captured factor
unchanged, and leaves the Register submit button enabled again, so
submission can be re-invoked immediately without re-capturing. -/
theorem submit_failure_preserves_factors
    (s : RegState) (t : LoginState) (o : SubmitOutcome)
    (hface : s.faceImage.isSome = true) (hfp : s.fingerprintData.isSome = true)
    (hstep : s.step = 2) (ho : o.isFailure = true) :
    (Register.handleSubmit s o).state.error =
      o.displayedError "Registration failed" "Registration failed. Please try again." ∧
    (Register.handleSubmit s o).state.step = 2 ∧
    (Register.handleSubmit s o).state.faceImage = s.faceImage ∧
    (Register.handleSubmit s o).state.fingerprintData = s.fingerprintData ∧
    (Register.handleSubmit s o).state.formData = s.formData ∧
    (Register.handleSubmit s o).state.loading = false ∧
    (Register.handleSubmit s o).onSuccessCall = none ∧
    Register.submitEnabled (Register.handleSubmit s o).state = true ∧
    (Login.handleSubmit t o).state.error =
      o.displayedError "Login failed" "Login failed. Please try again." ∧
    (Login.handleSubmit t o).state.faceImage = t.faceImage ∧
    (Login.handleSubmit t o).state.loading = false ∧
    (Login.handleSubmit t o).onSuccessCall = none := by
  obtain ⟨f, hf⟩ := Option.isSome_iff_exists.mp hface
  obtain ⟨g, hg⟩ := Option.isSome_iff_exists.mp hfp
  cases o with
  | env e =>
      have hsucc : e.success = false := by
        simpa [SubmitOutcome.isFailure] using ho
      simp [Register.handleSubmit, Login.handleSubmit, Register.validateStep2,
            Register.submitEnabled, SubmitOutcome.displayedError, hf, hg, hsucc, hstep]
  | thrown m =>
      simp [Register.handleSubmit, Login.handleSubmit, Register.validateStep2,
            Register.submitEnabled, SubmitOutcome.displayedError, hf, hg, hstep]

/-- C6 witness: the theorem applied at concrete states and a concrete
failure envelope carrying a message. -/
theorem submit_failure_preserves_factors_witness :
    (Register.handleSubmit sBio (.env envFail)).state.error = "Invalid credentials" ∧
    (Register.handleSubmit sBio (.env envFail)).state.faceImage = sBio.faceImage ∧
    Register.submitEnabled (Register.handleSubmit sBio (.env envFail)).state = true := by
  have h := submit_failure_preserves_factors sBio tNoFace (.env envFail) rfl rfl rfl rfl
  refine ⟨?_, h.2.2.1, h.2.2.2.2.2.2.2.1⟩
  rw [h.1]
  rfl

/-- C10: editing any credential input field clears the displayed error
and stores the new value in that field, while leaving every other form
field, the current step, and the captured face and fingerprint factors
unchanged, in the Login form and both Register variants. -/
theorem input_change_clears_error_only
    (s : LoginState) (r : RegState) (u : RegOptState)
    (f : LoginField) (g : RegField) (v : String) :
    (Login.handleInputChange s f v).error = "" ∧
    (Login.handleInputChange s f v).formData.get f = v ∧
    (∀ f2, f2 ≠ f → (Login.handleInputChange s f v).formData.get f2 = s.formData.get f2) ∧
    (Login.handleInputChange s f v).faceImage = s.faceImage ∧
    (Login.handleInputChange s f v).loading = s.loading ∧
    (Register.handleInputChange r g v).error = "" ∧
    (Register.handleInputChange r g v).formData.get g = v ∧
    (∀ g2, g2 ≠ g → (Register.handleInputChange r g v).formData.get g2 = r.formData.get g2) ∧
    (Register.handleInputChange r g v).step = r.step ∧
    (Register.handleInputChange r g v).faceImage = r.faceImage ∧
    (Register.handleInputChange r g v).fingerprintData = r.fingerprintData ∧
    (RegisterOpt.handleInputChange u g v).error = "" ∧
    (∀ g2, g2 ≠ g → (RegisterOpt.handleInputChange u g v).formData.get g2 = u.formData.get g2) ∧
    (RegisterOpt.handleInputChange u g v).step = u.step ∧
    (RegisterOpt.handleInputChange u g v).faceImage = u.faceImage := by
  refine ⟨rfl, ?_, ?_, rfl, rfl, rfl, ?_, ?_, rfl, rfl, rfl, rfl, ?_, rfl, rfl⟩
  · cases f <;> rfl
  · intro f2 hne
    cases f <;> cases f2 <;>
      simp_all [Login.handleInputChange, LoginForm.set, LoginForm.get]
  · cases g <;> rfl
  · intro g2 hne
    cases g <;> cases g2 <;>
      simp_all [Register.handleInputChange, RegForm.set, RegForm.get]
  · intro g2 hne
    cases g <;> cases g2 <;>
      simp_all [RegisterOpt.handleInputChange, RegForm.set, RegForm.get]

/-- C10 witness: the theorem applied at concrete states, editing the
username field of the Login form. -/
theorem input_change_clears_error_only_witness :
    (Login.handleInputChange tNoFace .username "bob").error = "" ∧
    (Login.handleInputChange tNoFace .username "bob").formData.get .password =
      tNoFace.formData.get .password := by
  have h := input_change_clears_error_only tNoFace sBio uOpt .username .username "bob"
  exact ⟨h.1, h.2.2.1 .password (by decide)⟩
